import Mathlib

/-!
Verification of the creative-atlas browser-automation scripts and of the
ReadinessProbe component specified for them.

Part 1 embeds the three Python scripts
(src/verification/verify_error_state.py, src/code/e2e/verify_tooltip.py,
src/jules-scratch/verification/verify_template_gallery.py) shallowly:
every Playwright call the script makes is a field of a page record that
either succeeds or raises (Except), and each run returns the process exit
code together with the ordered list of completed observable effects.
An effect is recorded only when the corresponding call returns normally,
so the trace lists the side effects that actually happened during the run.

Part 2 models the ReadinessProbe that the spec designs as the
generalisation of the scripts; that component has no implementation in the
repository, so its definitions are modelled from the spec (section 4.1)
and are marked as such.
-/

namespace CreativeAtlas

/-- Observable effects of a script run, in the order they completed.
A click or wait event is recorded when the call returned normally; a
screenshot event is recorded exactly when the image file was written. -/
inductive Ev where
  | gotoUrl (url : String)
  | waitSel (sel : String) (timeoutMs : Nat)
  | evalJs (js : String)
  | checkVisible (descr : String)
  | click (descr : String)
  | getAttr (attr : String)
  | printLine (msg : String)
  | screenshot (path : String)
  | closeBrowser
  deriving DecidableEq, Repr

/-- Number of occurrences of an element in a list. -/
def countEv {α : Type} [DecidableEq α] (a : α) : List α → Nat
  | [] => 0
  | b :: l => (if b = a then 1 else 0) + countEv a l

/-! ### src/verification/verify_error_state.py -/

/-- The Playwright calls issued by verify_error_state.py, one field per
call site.  An error value models the call raising. -/
structure ErrorStatePage where
  goto : String → Except String Unit
  waitForSelector : String → Nat → Except String Unit
  startBtnVisible : Except String Bool
  clickStartBtn : Except String Unit
  clickCreateNewProject : Except String Unit
  clickCreateProject : Except String Unit
  screenshot : String → Except String Unit

/-- The tail of the inner try block of verify_error_state, from the point
where the create-project form has been reached: click the Create Project
button, then take the screenshot. -/
def afterForm (p : ErrorStatePage) (pre : List Ev) : Except String Unit × List Ev :=
  match p.clickCreateProject with
  | .error e => (.error e, pre)
  | .ok _ =>
    match p.screenshot "verification/error_state.png" with
    | .error e => (.error e, pre ++ [.click "button:Create Project"])
    | .ok _ =>
      (.ok (), pre ++ [.click "button:Create Project",
        .screenshot "verification/error_state.png"])

/-- The inner try block of verify_error_state: goto, wait for the form
with a 5000 ms timeout, and on timeout run the bare-except recovery branch
(click the Start-a-new-world button if visible, else the Create New
Project control, then wait for the form again with the Playwright default
30000 ms timeout). -/
def errorStateBody (p : ErrorStatePage) : Except String Unit × List Ev :=
  match p.goto "http://localhost:5173?guest=1" with
  | .error e => (.error e, [])
  | .ok _ =>
    match p.waitForSelector "#create-project-form" 5000 with
    | .ok _ =>
      afterForm p [.gotoUrl "http://localhost:5173?guest=1",
        .waitSel "#create-project-form" 5000]
    | .error _ =>
      match p.startBtnVisible with
      | .error e => (.error e, [.gotoUrl "http://localhost:5173?guest=1"])
      | .ok vis =>
        let pre : List Ev := [.gotoUrl "http://localhost:5173?guest=1",
          .checkVisible "button:Start a new world"]
        match (if vis then p.clickStartBtn else p.clickCreateNewProject) with
        | .error e => (.error e, pre)
        | .ok _ =>
          let pre := pre ++ [if vis then Ev.click "button:Start a new world"
            else Ev.click "title:Create New Project"]
          match p.waitForSelector "#create-project-form" 30000 with
          | .error e => (.error e, pre)
          | .ok _ => afterForm p (pre ++ [.waitSel "#create-project-form" 30000])

/-- verify_error_state as invoked by the __main__ guard: the try body,
an except-Exception handler that prints the error, and a finally clause
closing the browser.  The function returns normally on both paths, so the
process exit code is always 0. -/
def verify_error_state (p : ErrorStatePage) : Nat × List Ev :=
  match errorStateBody p with
  | (.ok _, tr) => (0, tr ++ [.closeBrowser])
  | (.error e, tr) => (0, tr ++ [.printLine ("Error: " ++ e), .closeBrowser])

/-! ### src/code/e2e/verify_tooltip.py -/

/-- The Playwright calls issued by verify_profile_tooltip. -/
structure TooltipPage where
  goto : String → Except String Unit
  expectProfileVisible : Except String Unit
  getTitleAttr : Except String (Option String)
  screenshot : String → Except String Unit

/-- Python string form of an optional attribute value. -/
def optRepr : Option String → String
  | none => "None"
  | some s => s

/-- The body of verify_profile_tooltip: goto, expect the profile button to
be visible within 10000 ms, read its title attribute, print it, raise an
AssertionError if it differs from the expected text, else screenshot. -/
def verify_profile_tooltip (p : TooltipPage) : Except String Unit × List Ev :=
  match p.goto "http://localhost:4173?guest=1" with
  | .error e => (.error e, [])
  | .ok _ =>
    match p.expectProfileVisible with
    | .error e => (.error e, [.gotoUrl "http://localhost:4173?guest=1"])
    | .ok _ =>
      match p.getTitleAttr with
      | .error e => (.error e, [.gotoUrl "http://localhost:4173?guest=1",
          .checkVisible "label:Open profile drawer"])
      | .ok t =>
        let pre : List Ev := [.gotoUrl "http://localhost:4173?guest=1",
          .checkVisible "label:Open profile drawer", .getAttr "title",
          .printLine ("Title attribute value: " ++ optRepr t)]
        if t ≠ some "Open profile drawer" then
          (.error ("Expected title Open profile drawer, but got " ++ optRepr t), pre)
        else
          match p.screenshot "/home/jules/verification/header_tooltip.png" with
          | .error e => (.error e, pre)
          | .ok _ =>
            (.ok (), pre ++ [.screenshot "/home/jules/verification/header_tooltip.png"])

/-- The __main__ guard of verify_tooltip.py: try the verification with a
finally clause closing the browser; no except handler, so an exception
reaches the interpreter after the close and the process exits 1. -/
def tooltipMain (p : TooltipPage) : Nat × List Ev :=
  match verify_profile_tooltip p with
  | (.ok _, tr) => (0, tr ++ [.closeBrowser])
  | (.error _, tr) => (1, tr ++ [.closeBrowser])

/-! ### src/jules-scratch/verification/verify_template_gallery.py -/

/-- Run a straight-line sequence of fallible steps, stopping at the first
one that raises; the trace holds the events of the steps that completed. -/
def runSteps : List (Except String Unit × Ev) → Except String Unit × List Ev
  | [] => (.ok (), [])
  | (st, ev) :: rest =>
    match st with
    | .error e => (.error e, [])
    | .ok _ => ((runSteps rest).fst, ev :: (runSteps rest).snd)

/-- The Playwright calls issued by verify_template_gallery.py. -/
structure GalleryPage where
  goto : String → Except String Unit
  waitH1 : Except String Unit
  evalScroll : Except String Unit
  waitHideLibrary : Except String Unit
  waitMagicTemplate : Except String Unit
  clickMagicTemplate : Except String Unit
  waitArtifactTitle : Except String Unit
  screenshot : String → Except String Unit
  close : Except String Unit

namespace TemplateGallery

/-- The run function of verify_template_gallery.py: a straight line of
waits, one click, the screenshot and finally browser.close, with no
try or finally around any of it. -/
def run (p : GalleryPage) : Except String Unit × List Ev :=
  runSteps [
    (p.goto "http://localhost:5173/", .gotoUrl "http://localhost:5173/"),
    (p.waitH1, .waitSel "h1" 60000),
    (p.evalScroll, .evalJs "window.scrollTo(0, document.body.scrollHeight)"),
    (p.waitHideLibrary, .waitSel "button:Hide library" 30000),
    (p.waitMagicTemplate, .waitSel "button:MagicSystem" 15000),
    (p.clickMagicTemplate, .click "button:MagicSystem"),
    (p.waitArtifactTitle, .waitSel "h2:MagicSystem" 15000),
    (p.screenshot "jules-scratch/verification/verification.png",
      .screenshot "jules-scratch/verification/verification.png"),
    (p.close, .closeBrowser)]

/-- The module-level code of verify_template_gallery.py: run inside the
sync_playwright context; an exception propagates to the interpreter, so
the exit code is 0 exactly when every step of run completed. -/
def script (p : GalleryPage) : Nat × List Ev :=
  match run p with
  | (.ok _, tr) => (0, tr)
  | (.error _, tr) => (1, tr)

end TemplateGallery

/-! ### The ReadinessProbe component

The spec designs a ReadinessProbe as the generalisation of the three
scripts; the repository contains no implementation of it, so the
definitions below are modelled from the spec. -/

/-- Modelled from the spec: a named readiness condition with its timeout
(section 3, Condition). -/
structure Condition where
  name : String
  timeoutMs : Nat
  deriving DecidableEq, Repr

/-- Modelled from the spec: a plan entry, a condition paired with an
optional recovery action given by the locator it clicks (section 3,
ProbePlan entries). -/
structure ProbeEntry where
  cond : Condition
  recovery : Option String
  deriving DecidableEq, Repr

/-- Modelled from the spec: an ordered sequence of plan entries
(section 3, ProbePlan). -/
abbrev ProbePlan := List ProbeEntry

/-- Modelled from the spec: the tri-state result type of a probe
invocation (section 3, ProbeResult). -/
inductive ProbeResult where
  | Ready (conditionMatched : String)
  | RecoveredThenReady
  | TimedOut (conditionsTried : List String)
  | Failed (reason : String)
  deriving DecidableEq, Repr

/-- Modelled from the spec: the external UI handle (section 6).  Each
operation threads an abstract UI state and may fault, modelling the
automation layer breaking; waitUntil returns whether the locator became
visible within the given timeout. -/
structure UIHandle (σ : Type) where
  waitUntil : σ → String → Nat → Except String (Bool × σ)
  click : σ → String → Except String σ

/-- Events performed by a probe run, in order: each bounded wait on a
condition, and each recovery click. -/
inductive PEv where
  | wait (cond : String) (timeoutMs : Nat)
  | click (action : String)
  deriving DecidableEq, Repr

/-- Modelled from the spec: the probe loop of section 4.1.  Entries are
tried strictly in order; a satisfied condition returns Ready at once; a
timed-out entry with a recovery action gets one click and one secondary
recheck with the short recheck timeout; exhaustion returns TimedOut with
the conditions tried; any handle fault returns Failed with its reason. -/
def probeGo {σ : Type} (h : UIHandle σ) (recheckMs : Nat) :
    ProbePlan → σ → List String → ProbeResult × List PEv
  | [], _, tried => (.TimedOut tried.reverse, [])
  | e :: rest, s, tried =>
    match h.waitUntil s e.cond.name e.cond.timeoutMs with
    | .error r => (.Failed r, [.wait e.cond.name e.cond.timeoutMs])
    | .ok (true, _) => (.Ready e.cond.name, [.wait e.cond.name e.cond.timeoutMs])
    | .ok (false, s1) =>
      match e.recovery with
      | none =>
        ((probeGo h recheckMs rest s1 (e.cond.name :: tried)).fst,
          .wait e.cond.name e.cond.timeoutMs ::
            (probeGo h recheckMs rest s1 (e.cond.name :: tried)).snd)
      | some act =>
        match h.click s1 act with
        | .error r =>
          (.Failed r, [.wait e.cond.name e.cond.timeoutMs, .click act])
        | .ok s2 =>
          match h.waitUntil s2 e.cond.name recheckMs with
          | .error r =>
            (.Failed r, [.wait e.cond.name e.cond.timeoutMs, .click act,
              .wait e.cond.name recheckMs])
          | .ok (true, _) =>
            (.RecoveredThenReady, [.wait e.cond.name e.cond.timeoutMs,
              .click act, .wait e.cond.name recheckMs])
          | .ok (false, s3) =>
            ((probeGo h recheckMs rest s3 (e.cond.name :: tried)).fst,
              .wait e.cond.name e.cond.timeoutMs :: .click act ::
                .wait e.cond.name recheckMs ::
                  (probeGo h recheckMs rest s3 (e.cond.name :: tried)).snd)

/-- Modelled from the spec: probe(plan, page) of section 4.1, returning
its result together with the ordered events it performed. -/
def probe {σ : Type} (h : UIHandle σ) (recheckMs : Nat) (plan : ProbePlan)
    (s : σ) : ProbeResult × List PEv :=
  probeGo h recheckMs plan s []

/-- Total wait time a probe trace can block for: the sum of the timeouts
of its bounded waits (clicks are not waits). -/
def waitTimeTotal : List PEv → Nat
  | [] => 0
  | .wait _ t :: tr => t + waitTimeTotal tr
  | .click _ :: tr => waitTimeTotal tr

/-- The spec bound of section 8: every entry contributes its own timeout
plus at most one secondary recheck timeout. -/
def planBound (recheckMs : Nat) : ProbePlan → Nat
  | [] => 0
  | e :: rest => e.cond.timeoutMs + recheckMs + planBound recheckMs rest

/-- The condition names of the wait events of a trace, in order. -/
def waitNames : List PEv → List String
  | [] => []
  | .wait c _ :: tr => c :: waitNames tr
  | .click _ :: tr => waitNames tr

/-- A trace of condition checks follows a plan in order when it checks a
prefix of the plan entry by entry, each entry being checked once (primary
wait) or twice (primary wait then the single recheck) before the next
entry is touched. -/
inductive Sequenced : List String → List String → Prop
  | nil (ps : List String) : Sequenced ps []
  | once {ps ws : List String} (c : String) :
      Sequenced ps ws → Sequenced (c :: ps) (c :: ws)
  | twice {ps ws : List String} (c : String) :
      Sequenced ps ws → Sequenced (c :: ps) (c :: c :: ws)

/-! ### Concrete handles and plan entries used to instantiate theorems -/

/-- A handle whose every contact faults, as when the page has crashed. -/
def crashedHandle : UIHandle Unit where
  waitUntil := fun _ _ _ => .error "page crashed"
  click := fun _ _ => .ok ()

/-- A handle on which every condition is already satisfied. -/
def readyHandle : UIHandle Unit where
  waitUntil := fun _ _ _ => .ok (true, ())
  click := fun _ _ => .ok ()

/-- A handle on which the primary 5000 ms wait times out, the recovery
click succeeds, and the secondary recheck succeeds. -/
def recoverHandle : UIHandle Unit where
  waitUntil := fun _ _ t => if t = 5000 then .ok (false, ()) else .ok (true, ())
  click := fun _ _ => .ok ()

/-- A sample plan entry: wait for the main element, recover by clicking
the modal-dismiss control. -/
def sampleEntry : ProbeEntry := ⟨⟨"#main", 5000⟩, some "#dismiss"⟩

/-- An error-state page whose dev server is down: every Playwright call
raises. -/
def refusedErrorPage : ErrorStatePage where
  goto := fun _ => .error "net::ERR CONNECTION REFUSED"
  waitForSelector := fun _ _ => .error "Timeout exceeded"
  startBtnVisible := .error "target closed"
  clickStartBtn := .error "target closed"
  clickCreateNewProject := .error "target closed"
  clickCreateProject := .error "target closed"
  screenshot := fun _ => .error "target closed"

/-- An error-state page on which the 5000 ms wait for the form times out,
the Start-a-new-world button is visible, and every later call succeeds. -/
def recoveredErrorPage : ErrorStatePage where
  goto := fun _ => .ok ()
  waitForSelector := fun _ t => if t = 5000 then .error "Timeout 5000ms exceeded" else .ok ()
  startBtnVisible := .ok true
  clickStartBtn := .ok ()
  clickCreateNewProject := .ok ()
  clickCreateProject := .ok ()
  screenshot := fun _ => .ok ()

/-- A gallery page on which the wait for the h1 element times out and
every other call would succeed. -/
def timedOutGalleryPage : GalleryPage where
  goto := fun _ => .ok ()
  waitH1 := .error "Timeout 60000ms exceeded"
  evalScroll := .ok ()
  waitHideLibrary := .ok ()
  waitMagicTemplate := .ok ()
  clickMagicTemplate := .ok ()
  waitArtifactTitle := .ok ()
  screenshot := fun _ => .ok ()
  close := .ok ()

/-! ## Theorems about the ReadinessProbe -/

/-- Claim C3: every probe invocation is a total function producing
exactly one value of the tri-state (plus recovery) result type; faults of
the UI handle are consumed as Except values inside the probe, so no
unstructured exception reaches the caller, whatever the handle does
(condition satisfied, condition timing out, or handle fault). -/
theorem probe_one_typed_result {σ : Type} (h : UIHandle σ) (recheckMs : Nat)
    (plan : ProbePlan) (s : σ) :
    ∃ res trace, probe h recheckMs plan s = (res, trace) ∧
      ((∃ c, res = ProbeResult.Ready c) ∨ res = ProbeResult.RecoveredThenReady ∨
        (∃ cs, res = ProbeResult.TimedOut cs) ∨
        (∃ m, res = ProbeResult.Failed m)) := by
  refine ⟨(probe h recheckMs plan s).fst, (probe h recheckMs plan s).snd, rfl, ?_⟩
  rcases hx : (probe h recheckMs plan s).fst with c | _ | cs | m <;> simp

/-- Claim C4: a fault of the UI handle while polling the current
condition is reported as Failed carrying the underlying reason, and a
Failed result is never equal to a TimedOut result, so the caller can
distinguish the automation layer breaking from the app never becoming
ready.  By the recursion of probeGo, every entry of a plan is the head
entry of the invocation that processes it, so the statement covers a
fault at any entry. -/
theorem probe_fault_reported {σ : Type} (h : UIHandle σ) (recheckMs : Nat)
    (e : ProbeEntry) (rest : ProbePlan) (s : σ) (r : String)
    (hw : h.waitUntil s e.cond.name e.cond.timeoutMs = Except.error r) :
    (probe h recheckMs (e :: rest) s).fst = ProbeResult.Failed r ∧
      ∀ conds, ProbeResult.Failed r ≠ ProbeResult.TimedOut conds := by
  constructor
  · simp [probe, probeGo, hw]
  · intro conds hne
    cases hne

/-- Witness for probe_fault_reported at the crashed handle. -/
theorem probe_fault_reported_witness :
    (probe crashedHandle 1000 [sampleEntry] ()).fst =
        ProbeResult.Failed "page crashed" ∧
      ∀ conds, ProbeResult.Failed "page crashed" ≠ ProbeResult.TimedOut conds :=
  probe_fault_reported crashedHandle 1000 sampleEntry [] () "page crashed" rfl

/-- Claim C5: when the current entry times out, carries a recovery
action, and the click goes through, the trace shows the recovery click
performed exactly once, strictly between the primary wait and the single
secondary recheck wait. -/
theorem probe_recovery_once {σ : Type} (h : UIHandle σ) (recheckMs : Nat)
    (e : ProbeEntry) (rest : ProbePlan) (s s1 s2 : σ) (act : String)
    (hw : h.waitUntil s e.cond.name e.cond.timeoutMs = Except.ok (false, s1))
    (hr : e.recovery = some act)
    (hc : h.click s1 act = Except.ok s2) :
    ∃ tr,
      (probe h recheckMs (e :: rest) s).snd =
        PEv.wait e.cond.name e.cond.timeoutMs :: PEv.click act ::
          PEv.wait e.cond.name recheckMs :: tr ∧
      countEv (PEv.click act)
        [PEv.wait e.cond.name e.cond.timeoutMs, PEv.click act,
          PEv.wait e.cond.name recheckMs] = 1 := by
  rcases hrec : h.waitUntil s2 e.cond.name recheckMs with r | ⟨b, s3⟩
  · exact ⟨[], by simp [probe, probeGo, hw, hr, hc, hrec], by simp [countEv]⟩
  · cases b
    · exact ⟨(probeGo h recheckMs rest s3 [e.cond.name]).snd,
        by simp [probe, probeGo, hw, hr, hc, hrec], by simp [countEv]⟩
    · exact ⟨[], by simp [probe, probeGo, hw, hr, hc, hrec], by simp [countEv]⟩

/-- Witness for probe_recovery_once at the recovering handle. -/
theorem probe_recovery_once_witness :
    ∃ tr,
      (probe recoverHandle 500 [sampleEntry] ()).snd =
        PEv.wait "#main" 5000 :: PEv.click "#dismiss" ::
          PEv.wait "#main" 500 :: tr ∧
      countEv (PEv.click "#dismiss")
        [PEv.wait "#main" 5000, PEv.click "#dismiss",
          PEv.wait "#main" 500] = 1 :=
  probe_recovery_once recoverHandle 500 sampleEntry [] () () () "#dismiss"
    rfl rfl rfl

/-- Claim C6: when the first condition of the plan is already satisfied
at call time, the probe returns Ready for it and performs no click at
all, recovery or otherwise. -/
theorem probe_ready_no_click {σ : Type} (h : UIHandle σ) (recheckMs : Nat)
    (e : ProbeEntry) (rest : ProbePlan) (s s1 : σ)
    (hw : h.waitUntil s e.cond.name e.cond.timeoutMs = Except.ok (true, s1)) :
    (probe h recheckMs (e :: rest) s).fst = ProbeResult.Ready e.cond.name ∧
      ∀ a, PEv.click a ∉ (probe h recheckMs (e :: rest) s).snd := by
  constructor
  · simp [probe, probeGo, hw]
  · intro a
    simp [probe, probeGo, hw]

/-- Witness for probe_ready_no_click at the already-ready handle. -/
theorem probe_ready_no_click_witness :
    (probe readyHandle 500 [sampleEntry] ()).fst = ProbeResult.Ready "#main" ∧
      ∀ a, PEv.click a ∉ (probe readyHandle 500 [sampleEntry] ()).snd :=
  probe_ready_no_click readyHandle 500 sampleEntry [] () () rfl

/-- Claim C7: the probe never blocks indefinitely: the total time its
bounded waits can block for is at most the sum over the plan of each
entry timeout plus one secondary recheck timeout, for every plan
(non-empty or not) and every behaviour of the handle. -/
theorem probe_terminates_bounded {σ : Type} (h : UIHandle σ)
    (recheckMs : Nat) (plan : ProbePlan) (s : σ) :
    waitTimeTotal (probe h recheckMs plan s).snd ≤ planBound recheckMs plan := by
  suffices H : ∀ (plan : ProbePlan) (s : σ) (tried : List String),
      waitTimeTotal (probeGo h recheckMs plan s tried).snd ≤
        planBound recheckMs plan from H plan s []
  intro plan
  induction plan with
  | nil => intro s tried; simp [probeGo, waitTimeTotal, planBound]
  | cons e rest ih =>
    intro s tried
    rcases hw : h.waitUntil s e.cond.name e.cond.timeoutMs with r | ⟨b, s1⟩
    · simp [probeGo, hw, waitTimeTotal, planBound]
      omega
    · cases b
      · rcases hr : e.recovery with _ | act
        · have := ih s1 (e.cond.name :: tried)
          simp [probeGo, hw, hr, waitTimeTotal, planBound]
          omega
        · rcases hc : h.click s1 act with r | s2
          · simp [probeGo, hw, hr, hc, waitTimeTotal, planBound]
            omega
          · rcases hrec : h.waitUntil s2 e.cond.name recheckMs with r | ⟨b2, s3⟩
            · simp [probeGo, hw, hr, hc, hrec, waitTimeTotal, planBound]
            · cases b2
              · have := ih s3 (e.cond.name :: tried)
                simp [probeGo, hw, hr, hc, hrec, waitTimeTotal, planBound]
                omega
              · simp [probeGo, hw, hr, hc, hrec, waitTimeTotal, planBound]
      · simp [probeGo, hw, waitTimeTotal, planBound]
        omega

/-- Claim C9: within one probe invocation the conditions are checked
strictly in plan order: the sequence of condition checks performed is a
prefix of the plan in which each entry is checked once, or twice when its
single recovery recheck ran, before any later entry is touched.  The
trace is a single sequential list, so no two checks or recovery clicks
overlap. -/
theorem probe_sequential_order {σ : Type} (h : UIHandle σ)
    (recheckMs : Nat) (plan : ProbePlan) (s : σ) :
    Sequenced (plan.map fun e => e.cond.name)
      (waitNames (probe h recheckMs plan s).snd) := by
  suffices H : ∀ (plan : ProbePlan) (s : σ) (tried : List String),
      Sequenced (plan.map fun e => e.cond.name)
        (waitNames (probeGo h recheckMs plan s tried).snd) from H plan s []
  intro plan
  induction plan with
  | nil => intro s tried; simp [probeGo, waitNames]; exact Sequenced.nil _
  | cons e rest ih =>
    intro s tried
    rcases hw : h.waitUntil s e.cond.name e.cond.timeoutMs with r | ⟨b, s1⟩
    · simp [probeGo, hw, waitNames]
      exact Sequenced.once _ (Sequenced.nil _)
    · cases b
      · rcases hr : e.recovery with _ | act
        · simp [probeGo, hw, hr, waitNames]
          exact Sequenced.once _ (ih s1 (e.cond.name :: tried))
        · rcases hc : h.click s1 act with r | s2
          · simp [probeGo, hw, hr, hc, waitNames]
            exact Sequenced.once _ (Sequenced.nil _)
          · rcases hrec : h.waitUntil s2 e.cond.name recheckMs with r | ⟨b2, s3⟩
            · simp [probeGo, hw, hr, hc, hrec, waitNames]
              exact Sequenced.twice _ (Sequenced.nil _)
            · cases b2
              · simp [probeGo, hw, hr, hc, hrec, waitNames]
                exact Sequenced.twice _ (ih s3 (e.cond.name :: tried))
              · simp [probeGo, hw, hr, hc, hrec, waitNames]
                exact Sequenced.twice _ (Sequenced.nil _)
      · simp [probeGo, hw, waitNames]
        exact Sequenced.once _ (Sequenced.nil _)

/-! ## Theorems about the scripts -/

/-- Counting distributes over list append. -/
lemma countEv_append {α : Type} [DecidableEq α] (a : α) (l1 l2 : List α) :
    countEv a (l1 ++ l2) = countEv a l1 + countEv a l2 := by
  induction l1 with
  | nil => simp [countEv]
  | cons b l ih => simp [countEv, ih]; omega

/-- The gallery script wrapper forwards the trace of run unchanged. -/
lemma script_trace_gallery (p : GalleryPage) :
    (TemplateGallery.script p).snd = (TemplateGallery.run p).snd := by
  rcases h : TemplateGallery.run p with ⟨r, tr⟩
  rcases r with e | u <;> simp [TemplateGallery.script, h]

/-- In the gallery run, the browser-close effect happens exactly when
every step of the run, the close itself included, succeeded. -/
lemma gallery_close_iff (p : GalleryPage) :
    Ev.closeBrowser ∈ (TemplateGallery.run p).snd ↔
      (TemplateGallery.run p).fst = .ok () := by
  rcases h1 : p.goto "http://localhost:5173/" with e | ⟨⟩
  · simp [TemplateGallery.run, runSteps, h1]
  rcases h2 : p.waitH1 with e | ⟨⟩
  · simp [TemplateGallery.run, runSteps, h1, h2]
  rcases h3 : p.evalScroll with e | ⟨⟩
  · simp [TemplateGallery.run, runSteps, h1, h2, h3]
  rcases h4 : p.waitHideLibrary with e | ⟨⟩
  · simp [TemplateGallery.run, runSteps, h1, h2, h3, h4]
  rcases h5 : p.waitMagicTemplate with e | ⟨⟩
  · simp [TemplateGallery.run, runSteps, h1, h2, h3, h4, h5]
  rcases h6 : p.clickMagicTemplate with e | ⟨⟩
  · simp [TemplateGallery.run, runSteps, h1, h2, h3, h4, h5, h6]
  rcases h7 : p.waitArtifactTitle with e | ⟨⟩
  · simp [TemplateGallery.run, runSteps, h1, h2, h3, h4, h5, h6, h7]
  rcases h8 : p.screenshot "jules-scratch/verification/verification.png" with e | ⟨⟩
  · simp [TemplateGallery.run, runSteps, h1, h2, h3, h4, h5, h6, h7, h8]
  rcases h9 : p.close with e | ⟨⟩
  · simp [TemplateGallery.run, runSteps, h1, h2, h3, h4, h5, h6, h7, h8, h9]
  · simp [TemplateGallery.run, runSteps, h1, h2, h3, h4, h5, h6, h7, h8, h9]

/-- In the gallery run, the screenshot file is written exactly when the
navigation, every wait, the click and the screenshot call itself all
succeeded. -/
lemma gallery_screenshot_iff (p : GalleryPage) :
    Ev.screenshot "jules-scratch/verification/verification.png" ∈
        (TemplateGallery.run p).snd ↔
      (p.goto "http://localhost:5173/" = .ok () ∧ p.waitH1 = .ok () ∧
        p.evalScroll = .ok () ∧ p.waitHideLibrary = .ok () ∧
        p.waitMagicTemplate = .ok () ∧ p.clickMagicTemplate = .ok () ∧
        p.waitArtifactTitle = .ok () ∧
        p.screenshot "jules-scratch/verification/verification.png" = .ok ()) := by
  rcases h1 : p.goto "http://localhost:5173/" with e | ⟨⟩
  · simp [TemplateGallery.run, runSteps, h1]
  rcases h2 : p.waitH1 with e | ⟨⟩
  · simp [TemplateGallery.run, runSteps, h1, h2]
  rcases h3 : p.evalScroll with e | ⟨⟩
  · simp [TemplateGallery.run, runSteps, h1, h2, h3]
  rcases h4 : p.waitHideLibrary with e | ⟨⟩
  · simp [TemplateGallery.run, runSteps, h1, h2, h3, h4]
  rcases h5 : p.waitMagicTemplate with e | ⟨⟩
  · simp [TemplateGallery.run, runSteps, h1, h2, h3, h4, h5]
  rcases h6 : p.clickMagicTemplate with e | ⟨⟩
  · simp [TemplateGallery.run, runSteps, h1, h2, h3, h4, h5, h6]
  rcases h7 : p.waitArtifactTitle with e | ⟨⟩
  · simp [TemplateGallery.run, runSteps, h1, h2, h3, h4, h5, h6, h7]
  rcases h8 : p.screenshot "jules-scratch/verification/verification.png" with e | ⟨⟩
  · simp [TemplateGallery.run, runSteps, h1, h2, h3, h4, h5, h6, h7, h8]
  rcases h9 : p.close with e | ⟨⟩
  · simp [TemplateGallery.run, runSteps, h1, h2, h3, h4, h5, h6, h7, h8, h9]
  · simp [TemplateGallery.run, runSteps, h1, h2, h3, h4, h5, h6, h7, h8, h9]

/-- In the tail of the error-state script, the screenshot file is written
exactly when both remaining calls succeed. -/
lemma afterForm_screenshot_iff (p : ErrorStatePage) (pre : List Ev)
    (hpre : Ev.screenshot "verification/error_state.png" ∉ pre) :
    Ev.screenshot "verification/error_state.png" ∈ (afterForm p pre).snd ↔
      (afterForm p pre).fst = .ok () := by
  rcases h1 : p.clickCreateProject with e | ⟨⟩
  · simp [afterForm, h1, hpre]
  rcases h2 : p.screenshot "verification/error_state.png" with e | ⟨⟩
  · simp [afterForm, h1, h2, hpre]
  · simp [afterForm, h1, h2]

/-- In the error-state script body, the screenshot file is written
exactly when the whole body ran to completion. -/
lemma errorState_screenshot_iff (p : ErrorStatePage) :
    Ev.screenshot "verification/error_state.png" ∈ (errorStateBody p).snd ↔
      (errorStateBody p).fst = .ok () := by
  rcases hg : p.goto "http://localhost:5173?guest=1" with e | ⟨⟩
  · simp [errorStateBody, hg]
  rcases hw1 : p.waitForSelector "#create-project-form" 5000 with e | ⟨⟩
  · rcases hv : p.startBtnVisible with e2 | vis
    · simp [errorStateBody, hg, hw1, hv]
    · cases vis
      · rcases hc : p.clickCreateNewProject with e3 | ⟨⟩
        · simp [errorStateBody, hg, hw1, hv, hc]
        rcases hw2 : p.waitForSelector "#create-project-form" 30000 with e4 | ⟨⟩
        · simp [errorStateBody, hg, hw1, hv, hc, hw2]
        have heq : errorStateBody p = afterForm p
            [Ev.gotoUrl "http://localhost:5173?guest=1",
              Ev.checkVisible "button:Start a new world",
              Ev.click "title:Create New Project",
              Ev.waitSel "#create-project-form" 30000] := by
          simp [errorStateBody, hg, hw1, hv, hc, hw2]
        rw [heq]
        exact afterForm_screenshot_iff p _ (by simp)
      · rcases hc : p.clickStartBtn with e3 | ⟨⟩
        · simp [errorStateBody, hg, hw1, hv, hc]
        rcases hw2 : p.waitForSelector "#create-project-form" 30000 with e4 | ⟨⟩
        · simp [errorStateBody, hg, hw1, hv, hc, hw2]
        have heq : errorStateBody p = afterForm p
            [Ev.gotoUrl "http://localhost:5173?guest=1",
              Ev.checkVisible "button:Start a new world",
              Ev.click "button:Start a new world",
              Ev.waitSel "#create-project-form" 30000] := by
          simp [errorStateBody, hg, hw1, hv, hc, hw2]
        rw [heq]
        exact afterForm_screenshot_iff p _ (by simp)
  · have heq : errorStateBody p = afterForm p
        [Ev.gotoUrl "http://localhost:5173?guest=1",
          Ev.waitSel "#create-project-form" 5000] := by
      simp [errorStateBody, hg, hw1]
    rw [heq]
    exact afterForm_screenshot_iff p _ (by simp)

/-- In verify_profile_tooltip, the screenshot file is written exactly
when the whole body ran to completion. -/
lemma tooltip_screenshot_iff (p : TooltipPage) :
    Ev.screenshot "/home/jules/verification/header_tooltip.png" ∈
        (verify_profile_tooltip p).snd ↔
      (verify_profile_tooltip p).fst = .ok () := by
  rcases hg : p.goto "http://localhost:4173?guest=1" with e | ⟨⟩
  · simp [verify_profile_tooltip, hg]
  rcases he : p.expectProfileVisible with e | ⟨⟩
  · simp [verify_profile_tooltip, hg, he]
  rcases ht : p.getTitleAttr with e | t
  · simp [verify_profile_tooltip, hg, he, ht]
  by_cases hv : t = some "Open profile drawer"
  · rcases hs : p.screenshot "/home/jules/verification/header_tooltip.png" with e | ⟨⟩
    · simp [verify_profile_tooltip, hg, he, ht, hv, hs]
    · simp [verify_profile_tooltip, hg, he, ht, hv, hs]
  · simp [verify_profile_tooltip, hg, he, ht, hv]

/-- Claim C1, counterexample: on a page whose server is down, the
error-state script run fails (it prints the error and never reaches the
checked UI state, so no screenshot is written), yet the process exit code
is 0 — the failed run is silently reported as success. -/
theorem failed_run_exits_zero :
    (verify_error_state refusedErrorPage).fst = 0 ∧
      countEv (Ev.screenshot "verification/error_state.png")
        (verify_error_state refusedErrorPage).snd = 0 ∧
      countEv (Ev.printLine "Error: net::ERR CONNECTION REFUSED")
        (verify_error_state refusedErrorPage).snd = 1 := by
  decide

/-- Claim C1, amended: the tooltip and template-gallery scripts exit 0
exactly when every verification step succeeded and non-zero otherwise,
but the error-state script catches every exception and always exits 0,
whatever happened. -/
theorem exit_code_per_script :
    (∀ p : ErrorStatePage, (verify_error_state p).fst = 0) ∧
      (∀ p : TooltipPage,
        ((tooltipMain p).fst = 0 ↔ (verify_profile_tooltip p).fst = .ok ())) ∧
      (∀ p : GalleryPage,
        ((TemplateGallery.script p).fst = 0 ↔
          (TemplateGallery.run p).fst = .ok ())) := by
  refine ⟨?_, ?_, ?_⟩
  · intro p
    rcases h : errorStateBody p with ⟨r, tr⟩
    rcases r with e | ⟨⟩ <;> simp [verify_error_state, h]
  · intro p
    rcases h : verify_profile_tooltip p with ⟨r, tr⟩
    rcases r with e | ⟨⟩ <;> simp [tooltipMain, h]
  · intro p
    rcases h : TemplateGallery.run p with ⟨r, tr⟩
    rcases r with e | ⟨⟩ <;> simp [TemplateGallery.script, h]

/-- Claim C2, counterexample: when the wait for the h1 element times out,
the template-gallery script raises out of run without ever calling
browser.close, so the browser is not closed by the script on that exit
path. -/
theorem gallery_close_skipped_on_failure :
    (TemplateGallery.script timedOutGalleryPage).fst = 1 ∧
      countEv Ev.closeBrowser
        (TemplateGallery.script timedOutGalleryPage).snd = 0 := by
  decide

/-- Claim C2, amended: the error-state and tooltip scripts close the
browser in a finally clause on every exit path, success or failure, but
the template-gallery script calls browser.close only as its last step, so
its close happens exactly when every preceding step succeeded; on a
failing run it leaves the close to the automation-library context
teardown. -/
theorem browser_close_per_script :
    (∀ p : ErrorStatePage, Ev.closeBrowser ∈ (verify_error_state p).snd) ∧
      (∀ p : TooltipPage, Ev.closeBrowser ∈ (tooltipMain p).snd) ∧
      (∀ p : GalleryPage,
        (Ev.closeBrowser ∈ (TemplateGallery.script p).snd ↔
          (TemplateGallery.run p).fst = .ok ())) := by
  refine ⟨?_, ?_, ?_⟩
  · intro p
    rcases h : errorStateBody p with ⟨r, tr⟩
    rcases r with e | ⟨⟩ <;> simp [verify_error_state, h]
  · intro p
    rcases h : verify_profile_tooltip p with ⟨r, tr⟩
    rcases r with e | ⟨⟩ <;> simp [tooltipMain, h]
  · intro p
    rw [script_trace_gallery]
    exact gallery_close_iff p

/-- Claim C8: in each script the screenshot artifact is written exactly
when every preceding navigation, wait, assertion and click step
succeeded (and the screenshot call itself did), at the path hardcoded at
the call site; the trace model has no operation that reads the file, so
no script consumes it. -/
theorem screenshot_success_only :
    (∀ p : ErrorStatePage,
        (Ev.screenshot "verification/error_state.png" ∈
            (verify_error_state p).snd ↔
          (errorStateBody p).fst = .ok ())) ∧
      (∀ p : TooltipPage,
        (Ev.screenshot "/home/jules/verification/header_tooltip.png" ∈
            (tooltipMain p).snd ↔
          (verify_profile_tooltip p).fst = .ok ())) ∧
      (∀ p : GalleryPage,
        (Ev.screenshot "jules-scratch/verification/verification.png" ∈
            (TemplateGallery.script p).snd ↔
          (p.goto "http://localhost:5173/" = .ok () ∧ p.waitH1 = .ok () ∧
            p.evalScroll = .ok () ∧ p.waitHideLibrary = .ok () ∧
            p.waitMagicTemplate = .ok () ∧ p.clickMagicTemplate = .ok () ∧
            p.waitArtifactTitle = .ok () ∧
            p.screenshot "jules-scratch/verification/verification.png" =
              .ok ()))) := by
  refine ⟨?_, ?_, ?_⟩
  · intro p
    have h := errorState_screenshot_iff p
    rcases hb : errorStateBody p with ⟨r, tr⟩
    rw [hb] at h
    rcases r with e | ⟨⟩ <;> simp [verify_error_state, hb] <;> simp_all
  · intro p
    have h := tooltip_screenshot_iff p
    rcases hb : verify_profile_tooltip p with ⟨r, tr⟩
    rw [hb] at h
    rcases r with e | ⟨⟩ <;> simp [tooltipMain, hb] <;> simp_all
  · intro p
    rw [script_trace_gallery]
    exact gallery_screenshot_iff p

/-- Neither of the two fallback clicks of the error-state recovery branch
occurs in the tail of the script after the form was reached. -/
lemma afterForm_no_fallback_clicks (p : ErrorStatePage) (pre : List Ev)
    (a : Ev)
    (ha : a = Ev.click "button:Start a new world" ∨
      a = Ev.click "title:Create New Project") :
    countEv a (afterForm p pre).snd = countEv a pre := by
  rcases h1 : p.clickCreateProject with e | ⟨⟩
  · simp [afterForm, h1]
  rcases h2 : p.screenshot "verification/error_state.png" with e | ⟨⟩
  · rcases ha with rfl | rfl <;>
      simp +decide [afterForm, h1, h2, countEv_append, countEv]
  · rcases ha with rfl | rfl <;>
      simp +decide [afterForm, h1, h2, countEv_append, countEv]

/-- Claim C10: in the recovery branch of the error-state script, when the
handle does not fault, exactly one of the two fallback actions is
performed in the whole run: the Start-a-new-world button when it is
visible, otherwise the Create-New-Project control — never both and never
neither. -/
theorem error_state_fallback_exactly_one (p : ErrorStatePage) (w : String)
    (vis : Bool)
    (hg : p.goto "http://localhost:5173?guest=1" = Except.ok ())
    (hw : p.waitForSelector "#create-project-form" 5000 = Except.error w)
    (hv : p.startBtnVisible = Except.ok vis)
    (hc : (if vis then p.clickStartBtn else p.clickCreateNewProject) =
      Except.ok ()) :
    countEv (Ev.click "button:Start a new world")
          (verify_error_state p).snd +
        countEv (Ev.click "title:Create New Project")
          (verify_error_state p).snd = 1 ∧
      countEv (Ev.click "button:Start a new world")
          (verify_error_state p).snd = (if vis then 1 else 0) ∧
      countEv (Ev.click "title:Create New Project")
          (verify_error_state p).snd = (if vis then 0 else 1) := by
  cases vis
  · have hc2 : p.clickCreateNewProject = Except.ok () := hc
    rcases hw2 : p.waitForSelector "#create-project-form" 30000 with e4 | ⟨⟩
    · simp +decide [verify_error_state, errorStateBody, hg, hw, hv, hc2, hw2,
        countEv_append, countEv]
    · have heq : errorStateBody p = afterForm p
          [Ev.gotoUrl "http://localhost:5173?guest=1",
            Ev.checkVisible "button:Start a new world",
            Ev.click "title:Create New Project",
            Ev.waitSel "#create-project-form" 30000] := by
        simp [errorStateBody, hg, hw, hv, hc2, hw2]
      have h1 := afterForm_no_fallback_clicks p
        [Ev.gotoUrl "http://localhost:5173?guest=1",
          Ev.checkVisible "button:Start a new world",
          Ev.click "title:Create New Project",
          Ev.waitSel "#create-project-form" 30000]
        (Ev.click "button:Start a new world") (Or.inl rfl)
      have h2 := afterForm_no_fallback_clicks p
        [Ev.gotoUrl "http://localhost:5173?guest=1",
          Ev.checkVisible "button:Start a new world",
          Ev.click "title:Create New Project",
          Ev.waitSel "#create-project-form" 30000]
        (Ev.click "title:Create New Project") (Or.inr rfl)
      rcases hb : afterForm p
          [Ev.gotoUrl "http://localhost:5173?guest=1",
            Ev.checkVisible "button:Start a new world",
            Ev.click "title:Create New Project",
            Ev.waitSel "#create-project-form" 30000] with ⟨r, tr⟩
      rw [hb] at h1 h2
      rcases r with e | ⟨⟩ <;>
        simp +decide [verify_error_state, heq, hb, countEv_append, countEv,
          h1, h2]
  · have hc2 : p.clickStartBtn = Except.ok () := hc
    rcases hw2 : p.waitForSelector "#create-project-form" 30000 with e4 | ⟨⟩
    · simp +decide [verify_error_state, errorStateBody, hg, hw, hv, hc2, hw2,
        countEv_append, countEv]
    · have heq : errorStateBody p = afterForm p
          [Ev.gotoUrl "http://localhost:5173?guest=1",
            Ev.checkVisible "button:Start a new world",
            Ev.click "button:Start a new world",
            Ev.waitSel "#create-project-form" 30000] := by
        simp [errorStateBody, hg, hw, hv, hc2, hw2]
      have h1 := afterForm_no_fallback_clicks p
        [Ev.gotoUrl "http://localhost:5173?guest=1",
          Ev.checkVisible "button:Start a new world",
          Ev.click "button:Start a new world",
          Ev.waitSel "#create-project-form" 30000]
        (Ev.click "button:Start a new world") (Or.inl rfl)
      have h2 := afterForm_no_fallback_clicks p
        [Ev.gotoUrl "http://localhost:5173?guest=1",
          Ev.checkVisible "button:Start a new world",
          Ev.click "button:Start a new world",
          Ev.waitSel "#create-project-form" 30000]
        (Ev.click "title:Create New Project") (Or.inr rfl)
      rcases hb : afterForm p
          [Ev.gotoUrl "http://localhost:5173?guest=1",
            Ev.checkVisible "button:Start a new world",
            Ev.click "button:Start a new world",
            Ev.waitSel "#create-project-form" 30000] with ⟨r, tr⟩
      rw [hb] at h1 h2
      rcases r with e | ⟨⟩ <;>
        simp +decide [verify_error_state, heq, hb, countEv_append, countEv,
          h1, h2]

/-- Witness for error_state_fallback_exactly_one on the recovering page:
the Start-a-new-world button is visible, so it is the one clicked. -/
theorem error_state_fallback_exactly_one_witness :
    countEv (Ev.click "button:Start a new world")
          (verify_error_state recoveredErrorPage).snd +
        countEv (Ev.click "title:Create New Project")
          (verify_error_state recoveredErrorPage).snd = 1 ∧
      countEv (Ev.click "button:Start a new world")
          (verify_error_state recoveredErrorPage).snd =
        (if true then 1 else 0) ∧
      countEv (Ev.click "title:Create New Project")
          (verify_error_state recoveredErrorPage).snd =
        (if true then 0 else 1) :=
  error_state_fallback_exactly_one recoveredErrorPage
    "Timeout 5000ms exceeded" true rfl rfl rfl rfl

end CreativeAtlas
